import Mathlib

/-!
Verification of the blossom-ai client network layer.

This file embeds, as Lean definitions, the parts of the repository that the
verified properties talk about:

* the retry/backoff engine of `blossom_ai/generators/base_generator.py`
  (`with_retry`, `_calculate_wait_time`, `_get_retry_after`,
  `RETRYABLE_HTTP_CODES`, `DEFAULT_RETRY_AFTER`);
* the HTTP error classification of `BaseGenerator._handle_http_error`
  (the 429 branch that extracts a retry-after hint from the response body);
* the SSE decoding layer of `blossom_ai/generators/streaming_mixin.py`
  (`SSEParser.parse_line`, `SSEParser.extract_content`,
  `StreamingMixin.stream_sse`), together with a model of Python
  `json.loads` and of the dict/list primitives the decoder uses;
* the session pool of `blossom_ai/core/session_manager.py`
  (`SyncSessionManager.get_session` / `close`);
* the token placement of the request builders
  (`BaseAPI._make_request` in `blossom_ai/base_client.py` and
  `SyncGenerator._make_request` / `BaseGenerator._get_auth_headers` in
  `blossom_ai/generators/base_generator.py`).

Machine integers are modelled as `Nat`/`Int` (no overflow is relevant here),
Python floats used by the backoff schedule are modelled as `ℚ` with the
jitter `random.uniform(0, 1)` passed in as an explicit parameter, and
Python exceptions are modelled with `Except` / explicit error components.
-/

/-! ## Retry & backoff policy engine
    (src/blossom_ai/generators/base_generator.py) -/

/-- `RETRYABLE_HTTP_CODES = {502, 503, 504}` (base_generator.py line 31).
    Note that 520 is not a member. -/
def RETRYABLE_HTTP_CODES : List Nat := [502, 503, 504]

/-- `DEFAULT_RETRY_AFTER = 60` (base_generator.py line 32). -/
def DEFAULT_RETRY_AFTER : Int := 60

/-- `MAX_EXPONENTIAL_BACKOFF = 32` (base_generator.py line 33). -/
def MAX_EXPONENTIAL_BACKOFF : ℚ := 32

/-- `MAX_CHUNK_ENCODING_BACKOFF = 16` (base_generator.py line 34). -/
def MAX_CHUNK_ENCODING_BACKOFF : ℚ := 16

/-- `_calculate_wait_time` (base_generator.py lines 40-42):
    `min(2 ** attempt + random.uniform(0, 1), max_backoff)`.
    The random jitter is passed in explicitly. -/
def _calculate_wait_time (attempt : Nat) (jitter : ℚ) (max_backoff : ℚ) : ℚ :=
  min ((2 : ℚ) ^ attempt + jitter) max_backoff

/-- Python whitespace characters stripped by `str.strip()`. -/
def wsChar (c : Char) : Bool :=
  [' ', '\t', '\n', '\r', Char.ofNat 11, Char.ofNat 12].contains c

/-- Python `str.strip()` on a character list: drop whitespace from both
    ends. -/
def stripChars (l : List Char) : List Char :=
  ((l.dropWhile wsChar).reverse.dropWhile wsChar).reverse

/-- Numeric value of a digit run, accumulated left to right. -/
def digitsVal (ds : List Char) (acc : Nat) : Nat :=
  match ds with
  | [] => acc
  | d :: more => digitsVal more (10 * acc + (d.toNat - 48))

/-- Model of Python `int(s)`: surrounding whitespace is ignored, an
    optional sign is followed by one or more digits; anything else raises
    `ValueError`, modelled as `none`. -/
def pyParseInt (s : String) : Option Int :=
  match stripChars s.data with
  | '-' :: r => if !r.isEmpty && r.all Char.isDigit then some (-(digitsVal r 0 : Int)) else none
  | '+' :: r => if !r.isEmpty && r.all Char.isDigit then some (digitsVal r 0 : Int) else none
  | r => if !r.isEmpty && r.all Char.isDigit then some (digitsVal r 0 : Int) else none

/-- `_get_retry_after` (base_generator.py lines 56-65): reads the
    `Retry-After` response header (here passed as the `Option String`
    value of that header) and parses it with `int(...)`; a missing or
    falsy (empty) header value, or a `ValueError` during parsing,
    yields `None`. -/
def _get_retry_after (retryAfterHeader : Option String) : Option Int :=
  match retryAfterHeader with
  | some s => if s = "" then none else pyParseInt s
  | none => none

/-- The exceptions the sync `with_retry` wrapper distinguishes
    (base_generator.py lines 75-108): `RateLimitError` carrying its
    `retry_after` attribute, `requests.exceptions.HTTPError` carrying the
    response status code and the response `Retry-After` header value,
    `requests.exceptions.ChunkedEncodingError`, and every other exception. -/
inductive ReqError where
  | rateLimitError (retry_after : Option Int)
  | httpError (status_code : Nat) (retryAfterHeader : Option String)
  | chunkedEncodingError
  | otherError
deriving DecidableEq

/-- Python `x or default` on an `Optional[int]` value: `None` and `0` are
    falsy and give the default; any nonzero integer is returned as-is.
    This is the wait expression `e.retry_after or DEFAULT_RETRY_AFTER`
    of base_generator.py line 83. -/
def pyOrInt (x : Option Int) (default : Int) : Int :=
  match x with
  | some n => if n = 0 then default else n
  | none => default

/-- The wait chosen for a retried `HTTPError`
    (base_generator.py lines 91-92):
    `retry_after if retry_after else _calculate_wait_time(attempt)`. -/
def httpErrorWait (retryAfterHeader : Option String) (attempt : Nat) (jitter : ℚ) : ℚ :=
  match _get_retry_after retryAfterHeader with
  | some n => if n = 0 then _calculate_wait_time attempt jitter MAX_EXPONENTIAL_BACKOFF else (n : ℚ)
  | none => _calculate_wait_time attempt jitter MAX_EXPONENTIAL_BACKOFF

/-- Outcome of running the sync `with_retry` wrapper: the final result
    (`Except.ok none` models the Python `None` returned when the loop body
    never runs, i.e. `max_attempts = 0`), the number of attempts actually
    performed, and the sequence of waits slept between attempts. -/
structure RetryTrace (α : Type) where
  result : Except ReqError (Option α)
  attempts : Nat
  waits : List ℚ

/-- The attempt loop of the sync wrapper of `with_retry`
    (base_generator.py lines 75-108), iterating over the remaining attempt
    indices of `range(max_attempts)`. `f` gives the outcome of the wrapped
    call at each attempt, `jitter` the `random.uniform(0, 1)` draw at each
    attempt. Each `except` branch either sleeps and continues, or re-raises
    the caught exception object unchanged. `time.sleep` is recorded here as
    a total trace step; `syncRetryLoopSleep` further below additionally
    models `time.sleep`'s rejection of negative durations, which matters
    when a computed wait is negative. -/
def syncRetryLoop (max_attempts : Nat) (f : Nat → Except ReqError α) (jitter : Nat → ℚ) :
    List Nat → Nat → List ℚ → RetryTrace α
  | [], done, waits => ⟨Except.ok none, done, waits.reverse⟩
  | attempt :: rest, done, waits =>
    match f attempt with
    | Except.ok a => ⟨Except.ok (some a), done + 1, waits.reverse⟩
    | Except.error e =>
      match e with
      | ReqError.rateLimitError ra =>
        if attempt < max_attempts - 1 then
          syncRetryLoop max_attempts f jitter rest (done + 1)
            (((pyOrInt ra DEFAULT_RETRY_AFTER : Int) : ℚ) :: waits)
        else ⟨Except.error e, done + 1, waits.reverse⟩
      | ReqError.httpError s hdr =>
        if s ∈ RETRYABLE_HTTP_CODES ∧ attempt < max_attempts - 1 then
          syncRetryLoop max_attempts f jitter rest (done + 1)
            (httpErrorWait hdr attempt (jitter attempt) :: waits)
        else ⟨Except.error e, done + 1, waits.reverse⟩
      | ReqError.chunkedEncodingError =>
        if attempt < max_attempts - 1 then
          syncRetryLoop max_attempts f jitter rest (done + 1)
            (_calculate_wait_time attempt (jitter attempt) MAX_CHUNK_ENCODING_BACKOFF :: waits)
        else ⟨Except.error e, done + 1, waits.reverse⟩
      | ReqError.otherError => ⟨Except.error e, done + 1, waits.reverse⟩

/-- The sync wrapper produced by `with_retry(max_attempts)`
    (base_generator.py lines 71-108). -/
def with_retry_sync (max_attempts : Nat) (f : Nat → Except ReqError α) (jitter : Nat → ℚ) :
    RetryTrace α :=
  syncRetryLoop max_attempts f jitter (List.range max_attempts) 0 []

/-- An error is retryable for the sync wrapper when one of its retrying
    `except` branches applies: a rate-limit error, an HTTP error whose
    status is in `RETRYABLE_HTTP_CODES`, or a chunked-encoding error. -/
def isRetryableError : ReqError → Bool
  | ReqError.rateLimitError _ => true
  | ReqError.httpError s _ => s ∈ RETRYABLE_HTTP_CODES
  | ReqError.chunkedEncodingError => true
  | ReqError.otherError => false

/-! ## A model of Python JSON values and of `json.loads`
    (used by `_handle_http_error` and the SSE decoder) -/

/-- Python values produced by `json.loads`: null, booleans, integers,
    strings, lists and string-keyed dicts. (Fractional and exponent
    number forms are not modelled; every payload relevant here is
    integral.) -/
inductive JVal where
  | null : JVal
  | bool (b : Bool) : JVal
  | num (n : Int) : JVal
  | str (s : String) : JVal
  | arr (elems : List JVal) : JVal
  | obj (fields : List (String × JVal)) : JVal

mutual

/-- Structural equality test on `JVal`. -/
def jvalBeq : JVal → JVal → Bool
  | JVal.null, JVal.null => true
  | JVal.bool a, JVal.bool b => a == b
  | JVal.num a, JVal.num b => a == b
  | JVal.str a, JVal.str b => a == b
  | JVal.arr a, JVal.arr b => jvalListBeq a b
  | JVal.obj a, JVal.obj b => jvalFieldsBeq a b
  | _, _ => false

/-- Pointwise `jvalBeq` on lists. -/
def jvalListBeq : List JVal → List JVal → Bool
  | [], [] => true
  | x :: xs, y :: ys => jvalBeq x y && jvalListBeq xs ys
  | _, _ => false

/-- Pointwise `jvalBeq` on key/value lists. -/
def jvalFieldsBeq : List (String × JVal) → List (String × JVal) → Bool
  | [], [] => true
  | x :: xs, y :: ys => (x.1 == y.1 && jvalBeq x.2 y.2) && jvalFieldsBeq xs ys
  | _, _ => false

end

instance : BEq JVal := ⟨jvalBeq⟩

/-- Skip JSON whitespace. -/
def jsonSkip (src : List Char) : List Char :=
  src.dropWhile wsChar

/-- JSON string escapes accepted by the model. -/
def jEscape : Char → Option Char
  | 'n' => some '\n'
  | 'r' => some '\r'
  | 't' => some '\t'
  | '"' => some '"'
  | '/' => some '/'
  | '\\' => some '\\'
  | _ => none

/-- Body of a JSON string after the opening quote; `esc` records that a
    backslash was just read. -/
def jStringBody (src out : List Char) (esc : Bool) : Option (String × List Char) :=
  match src with
  | [] => none
  | ch :: more =>
    if esc then
      match jEscape ch with
      | some real => jStringBody more (real :: out) false
      | none => none
    else if ch == '"' then some (String.mk out.reverse, more)
    else if ch == '\\' then jStringBody more out true
    else jStringBody more (ch :: out) false

/-- Split a leading digit run off the input. -/
def splitDigits : List Char → List Char × List Char
  | [] => ([], [])
  | d :: more =>
    if d.isDigit then
      let p := splitDigits more
      (d :: p.1, p.2)
    else ([], d :: more)

/-- Parse a JSON integer: an optional minus sign, then digits. -/
def jNumber (src : List Char) : Option (JVal × List Char) :=
  match src with
  | '-' :: more =>
    let p := splitDigits more
    if p.1.isEmpty then none else some (JVal.num (-(digitsVal p.1 0 : Int)), p.2)
  | _ =>
    let p := splitDigits src
    if p.1.isEmpty then none else some (JVal.num (digitsVal p.1 0 : Int), p.2)

/-- Recognise a keyword continuation, returning what follows it. -/
def litAfter (kw : List Char) (src : List Char) : Option (List Char) :=
  if kw.isPrefixOf src then some (src.drop kw.length) else none

mutual

/-- Recursive-descent JSON value parser (fuel-bounded). -/
def jloadsVal : Nat → List Char → Option (JVal × List Char)
  | 0, _ => none
  | fuel + 1, src =>
    match jsonSkip src with
    | [] => none
    | ch :: more =>
      if ch == Char.ofNat 123 then jloadsPairs fuel (jsonSkip more) []
      else if ch == '[' then jloadsItems fuel (jsonSkip more) []
      else if ch == '"' then do
        let (s, after) ← jStringBody more [] false
        pure (JVal.str s, after)
      else if ch == 'n' then do
        let after ← litAfter (String.toList "ull") more
        pure (JVal.null, after)
      else if ch == 't' then do
        let after ← litAfter (String.toList "rue") more
        pure (JVal.bool true, after)
      else if ch == 'f' then do
        let after ← litAfter (String.toList "alse") more
        pure (JVal.bool false, after)
      else jNumber (ch :: more)

/-- Fields of a JSON object, after the opening brace. -/
def jloadsPairs : Nat → List Char → List (String × JVal) → Option (JVal × List Char)
  | 0, _, _ => none
  | fuel + 1, src, found =>
    match src with
    | [] => none
    | ch :: more =>
      if ch == Char.ofNat 125 then some (JVal.obj found.reverse, more)
      else if ch == '"' then do
        let (key, afterKey) ← jStringBody more [] false
        match jsonSkip afterKey with
        | ':' :: afterColon => do
          let (v, afterVal) ← jloadsVal fuel (jsonSkip afterColon)
          match jsonSkip afterVal with
          | ',' :: afterComma => jloadsPairs fuel (jsonSkip afterComma) ((key, v) :: found)
          | stop :: afterStop =>
            if stop == Char.ofNat 125 then some (JVal.obj ((key, v) :: found).reverse, afterStop)
            else none
          | [] => none
        | _ => none
      else none

/-- Items of a JSON array, after the opening bracket. -/
def jloadsItems : Nat → List Char → List JVal → Option (JVal × List Char)
  | 0, _, _ => none
  | fuel + 1, src, found =>
    match src with
    | [] => none
    | ch :: _ =>
      if ch == ']' then some (JVal.arr found.reverse, src.drop 1)
      else do
        let (v, after) ← jloadsVal fuel src
        match jsonSkip after with
        | ',' :: afterComma => jloadsItems fuel (jsonSkip afterComma) (v :: found)
        | stop :: afterStop =>
          if stop == ']' then some (JVal.arr ((v :: found)).reverse, afterStop)
          else none
        | [] => none

end

/-- Model of Python `json.loads`: parse one JSON value and require that only
    whitespace remains. -/
def jsonParse (s : String) : Option JVal :=
  match jloadsVal (s.length + 1) s.data with
  | some (v, remainder) => if (jsonSkip remainder).isEmpty then some v else none
  | none => none

/-! ## Python dict/list primitives used by the decoder -/

/-- Exceptions the Python expressions modelled here can raise (attribute
    and subscript accesses in the decoder, and `time.sleep` on a negative
    duration). -/
inductive PyExn where
  | attributeError
  | typeError
  | keyError
  | indexError
  | valueError
deriving DecidableEq

/-- Python truthiness of a JSON value: `None`, `False`, `0`, `""`, `[]`
    and `{}` are falsy. -/
def truthy : JVal → Bool
  | JVal.null => false
  | JVal.bool b => b
  | JVal.num n => n != 0
  | JVal.str s => !s.data.isEmpty
  | JVal.arr xs => !xs.isEmpty
  | JVal.obj kvs => !kvs.isEmpty

/-- Python truthiness of an `Optional` value (`None` is falsy). -/
def truthyOpt : Option JVal → Bool
  | none => false
  | some v => truthy v

/-- Lookup in a Python dict built from a JSON object: the last binding of a
    duplicated key wins. -/
def pyDictLookup (kvs : List (String × JVal)) (k : String) : Option JVal :=
  match (kvs.reverse.find? fun kv => kv.1 == k) with
  | some kv => some kv.2
  | none => none

/-- Python `v.get(k)`: dict lookup returning `None` when absent;
    `AttributeError` when `v` is not a dict. -/
def pyGet (v : JVal) (k : String) : Except PyExn (Option JVal) :=
  match v with
  | JVal.obj kvs => Except.ok (pyDictLookup kvs k)
  | _ => Except.error PyExn.attributeError

/-- Python `v.get(k, d)`: dict lookup with default;
    `AttributeError` when `v` is not a dict. -/
def pyGetD (v : JVal) (k : String) (d : JVal) : Except PyExn JVal :=
  match pyGet v k with
  | Except.ok r => Except.ok (r.getD d)
  | Except.error e => Except.error e

/-- Python `v[k]` for a string key: `KeyError` when the key is absent,
    `TypeError` when `v` is not a dict. -/
def pyGetItem (v : JVal) (k : String) : Except PyExn JVal :=
  match v with
  | JVal.obj kvs =>
    match pyDictLookup kvs k with
    | some x => Except.ok x
    | none => Except.error PyExn.keyError
  | _ => Except.error PyExn.typeError

/-- Python `len(v)`: defined for strings, lists and dicts;
    `TypeError` otherwise. -/
def pyLen : JVal → Except PyExn Nat
  | JVal.str s => Except.ok s.length
  | JVal.arr xs => Except.ok xs.length
  | JVal.obj kvs => Except.ok kvs.length
  | _ => Except.error PyExn.typeError

/-- Substring test on character lists (contiguous occurrence). -/
def pyStrIn (sub : List Char) : List Char → Bool
  | [] => sub.isEmpty
  | c :: tail => List.isPrefixOf sub (c :: tail) || pyStrIn sub tail

/-- Python `k in v` for a string `k`: key containment for dicts, membership
    for lists, substring test for strings; `TypeError` otherwise. -/
def pyContains (v : JVal) (k : String) : Except PyExn Bool :=
  match v with
  | JVal.obj kvs => Except.ok (kvs.any fun kv => kv.1 == k)
  | JVal.arr xs => Except.ok (xs.any fun x => jvalBeq x (JVal.str k))
  | JVal.str s => Except.ok (pyStrIn k.data s.data)
  | _ => Except.error PyExn.typeError

/-- Python `v[i]` for an integer index `i ≥ 0`: list and string indexing
    (`IndexError` out of range), `KeyError` for a string-keyed dict,
    `TypeError` otherwise. -/
def pyIndex (v : JVal) (i : Nat) : Except PyExn JVal :=
  match v with
  | JVal.arr xs =>
    match xs.get? i with
    | some x => Except.ok x
    | none => Except.error PyExn.indexError
  | JVal.str s =>
    match s.data.get? i with
    | some c => Except.ok (JVal.str (String.mk [c]))
    | none => Except.error PyExn.indexError
  | JVal.obj _ => Except.error PyExn.keyError
  | _ => Except.error PyExn.typeError

/-! ## Incremental event-stream decoder
    (src/blossom_ai/generators/streaming_mixin.py) -/

/-- `SSEParser.parse_line` (streaming_mixin.py lines 24-38):
    blank lines and lines without the `"data: "` marker give `None`;
    the `[DONE]` payload gives the dict `{done: True}`; otherwise the
    payload is fed to `json.loads`, with a parse failure giving `None`.
    A payload that is the JSON literal `null` makes `json.loads` return
    Python `None`, which the caller cannot distinguish from a parse
    failure, so it is mapped to `none` here as well. -/
def parse_line (line : String) : Option JVal :=
  if (stripChars line.data).isEmpty then none
  else if List.isPrefixOf (String.toList "data: ") line.data then
    let dataStr := String.mk (stripChars (line.data.drop 6))
    if dataStr = "[DONE]" then some (JVal.obj [("done", JVal.bool true)])
    else
      match jsonParse dataStr with
      | some JVal.null => none
      | some v => some v
      | none => none
  else none

/-- `SSEParser.extract_content` (streaming_mixin.py lines 40-46):

    `if not parsed or parsed.get("done"): return None`
    `if "choices" in parsed and len(parsed["choices"]) > 0:`
    `    return parsed["choices"][0].get("delta", {}).get("content", "")`
    `return None`

    The attribute and subscript accesses can raise, so the result is an
    `Except` over the Python exception type. -/
def extract_content (parsed : JVal) : Except PyExn (Option JVal) :=
  if !truthy parsed then Except.ok none
  else
    match pyGet parsed "done" with
    | Except.error e => Except.error e
    | Except.ok doneV =>
      if truthyOpt doneV then Except.ok none
      else
        match pyContains parsed "choices" with
        | Except.error e => Except.error e
        | Except.ok hasChoices =>
          if hasChoices then
            match pyGetItem parsed "choices" with
            | Except.error e => Except.error e
            | Except.ok cs =>
              match pyLen cs with
              | Except.error e => Except.error e
              | Except.ok n =>
                if 0 < n then
                  match pyIndex cs 0 with
                  | Except.error e => Except.error e
                  | Except.ok c0 =>
                    match pyGetD c0 "delta" (JVal.obj []) with
                    | Except.error e => Except.error e
                    | Except.ok delta =>
                      match pyGetD delta "content" (JVal.str "") with
                      | Except.error e => Except.error e
                      | Except.ok content => Except.ok (some content)
                else Except.ok none
          else Except.ok none

/-- The loop body of `StreamingMixin.stream_sse`
    (streaming_mixin.py lines 53-63): per line, parse it; skip on `None`;
    stop on a truthy `done`; otherwise extract the content and yield it
    when truthy. The result is the list of yielded events together with
    the exception that aborted the stream, if any. -/
def streamGo : List String → List JVal × Option PyExn
  | [] => ([], none)
  | line :: rest =>
    match parse_line line with
    | none => streamGo rest
    | some parsed =>
      match pyGet parsed "done" with
      | Except.error e => ([], some e)
      | Except.ok doneV =>
        if truthyOpt doneV then ([], none)
        else
          match extract_content parsed with
          | Except.error e => ([], some e)
          | Except.ok contentOpt =>
            if truthyOpt contentOpt then
              match contentOpt with
              | some c =>
                match streamGo rest with
                | (evs, exn) => (c :: evs, exn)
              | none => streamGo rest
            else streamGo rest

/-- `StreamingMixin.stream_sse` (streaming_mixin.py lines 53-63), viewed as
    a function from the list of source lines to the emitted events plus the
    aborting exception, if any. -/
def stream_sse (lines : List String) : List JVal × Option PyExn :=
  streamGo lines

/-! ## The 429 branch of `BaseGenerator._handle_http_error`
    (base_generator.py lines 228-241) -/

/-- The retry-after hint attached to the `RateLimitError` raised for a 429
    response: start from `DEFAULT_RETRY_AFTER`; when the response body is
    truthy (present and non-empty), decode it as JSON and take the body
    field `retry_after` with default `DEFAULT_RETRY_AFTER`; any exception
    (parse failure, or `.get` on a non-dict body) is swallowed by the bare
    `except`, keeping the default. Note the hint comes from the response
    body, not from a `Retry-After` header. -/
def handle_429_retry_after (response_data : Option String) : JVal :=
  match response_data with
  | some s =>
    if s = "" then JVal.num DEFAULT_RETRY_AFTER
    else
      match jsonParse s with
      | some (JVal.obj kvs) => (pyDictLookup kvs "retry_after").getD (JVal.num DEFAULT_RETRY_AFTER)
      | _ => JVal.num DEFAULT_RETRY_AFTER
  | none => JVal.num DEFAULT_RETRY_AFTER

/-- Modelled from the spec: the spec's rate-limit hint source, which is not
    the code's. Section 4.3 / 6 of the spec say the hint is "a
    `Retry-After`-style header, parsed as integer seconds; default to 60 if
    absent or unparseable". -/
def spec_retry_after_hint (headers : List (String × String)) : Int :=
  match (headers.find? fun kv => kv.1 == "Retry-After") with
  | some kv =>
    match pyParseInt kv.2 with
    | some n => n
    | none => 60
  | none => 60

/-! ## Thread-confined session pool
    (src/blossom_ai/core/session_manager.py, `SyncSessionManager`) -/

namespace SyncSessionManager

/-- The mutable fields of a `SyncSessionManager` instance: the lazily
    created session (identified by an id, since the Python object identity
    is what matters), the closed flag, and a counter supplying fresh
    session ids so that distinct constructions are distinguishable. -/
structure State where
  _session : Option Nat
  _closed : Bool
  nextSessionId : Nat
deriving DecidableEq

/-- `SyncSessionManager.get_session` (session_manager.py lines 68-76):
    raise `RuntimeError("SyncSessionManager closed")` when closed; return
    the existing session when present; otherwise construct one under the
    lock (the double-checked re-read collapses in this sequential model)
    and return it. -/
def get_session (st : State) : Except String (Nat × State) :=
  if st._closed then Except.error "SyncSessionManager closed"
  else
    match st._session with
    | some s => Except.ok (s, st)
    | none =>
      Except.ok (st.nextSessionId,
        { _session := some st.nextSessionId, _closed := false,
          nextSessionId := st.nextSessionId + 1 })

/-- `SyncSessionManager.close` (session_manager.py lines 94-101): under the
    lock, return immediately when already closed; otherwise close the
    underlying session when one exists, clear it, and mark the pool
    closed. The second component counts how many times the underlying
    `Session.close()` was invoked by this call. -/
def close (st : State) : State × Nat :=
  if st._closed then (st, 0)
  else
    match st._session with
    | some _ =>
      ({ _session := none, _closed := true, nextSessionId := st.nextSessionId }, 1)
    | none =>
      ({ _session := none, _closed := true, nextSessionId := st.nextSessionId }, 0)

/-- A sequence of `n` consecutive `get_session` calls, collecting the
    returned session references. -/
def get_session_iter : State → Nat → Except String (List Nat × State)
  | st, 0 => Except.ok ([], st)
  | st, n + 1 =>
    match get_session st with
    | Except.error e => Except.error e
    | Except.ok (s, st1) =>
      match get_session_iter st1 n with
      | Except.error e => Except.error e
      | Except.ok (rest, st2) => Except.ok (s :: rest, st2)

/-- The session reference every acquire on a fresh pool returns: the
    existing one, or the one the first acquire will construct. -/
def expected_session (st : State) : Nat :=
  st._session.getD st.nextSessionId

/-- The pool state after the first acquire on a non-closed pool. -/
def state_after_acquire (st : State) : State :=
  match st._session with
  | some _ => st
  | none =>
    { _session := some st.nextSessionId, _closed := false,
      nextSessionId := st.nextSessionId + 1 }

end SyncSessionManager

/-! ## Token placement in the request builders -/

/-- Python dict assignment `d[k] = v` on a string-valued dict modelled as
    an association list: any old binding of `k` is replaced and the new
    binding appended. -/
def dictSet (d : List (String × String)) (k v : String) : List (String × String) :=
  (d.filter fun kv => kv.1 != k) ++ [(k, v)]

/-- Python `d.update(u)`: set every binding of `u` in `d`, in order. -/
def dictUpdate (d u : List (String × String)) : List (String × String) :=
  u.foldl (fun acc kv => dictSet acc kv.1 kv.2) d

/-- Dict lookup (first binding wins; the dict operations above keep keys
    unique, so this agrees with Python). -/
def dictLookup (d : List (String × String)) (k : String) : Option String :=
  match (d.find? fun kv => kv.1 == k) with
  | some kv => some kv.2
  | none => none

/-- Python `str.upper()` (ASCII, which covers every HTTP method name). -/
def pyUpper (s : String) : String :=
  String.mk (s.data.map Char.toUpper)

/-- `BaseAPI._make_request` token placement
    (src/blossom_ai/base_client.py lines 35-43): with a configured token,
    a POST request gets an `Authorization: Bearer <token>` header, while
    every other method gets the token added to the URL query parameters as
    `params['token']`. Returns the updated `(headers, params)`. -/
def baseAPI_apply_token (method : String) (headers params : List (String × String))
    (api_token : Option String) : List (String × String) × List (String × String) :=
  match api_token with
  | none => (headers, params)
  | some t =>
    if pyUpper method = "POST" then (dictSet headers "Authorization" ("Bearer " ++ t), params)
    else (headers, dictSet params "token" t)

/-- Model of how the HTTP library appends `params` to the request URL as a
    query string. -/
def urlWithParams (url : String) (params : List (String × String)) : String :=
  match params with
  | [] => url
  | _ => url ++ "?" ++ String.intercalate "&" (params.map fun kv => kv.1 ++ "=" ++ kv.2)

/-- Substring test on strings. -/
def strContains (s sub : String) : Bool :=
  pyStrIn sub.data s.data

/-- `BaseGenerator._get_auth_headers` (base_generator.py lines 186-193):
    a truthy (non-empty) token contributes an
    `Authorization: Bearer <token>` header and a truthy request id an
    `X-Request-ID` header; nothing else. -/
def _get_auth_headers (api_token : Option String) (request_id : Option String) :
    List (String × String) :=
  let h0 : List (String × String) := []
  let h1 :=
    match api_token with
    | some t => if t = "" then h0 else dictSet h0 "Authorization" ("Bearer " ++ t)
    | none => h0
  match request_id with
  | some r => if r = "" then h1 else dictSet h1 "X-Request-ID" r
  | none => h1

/-- The parts of the request built by `SyncGenerator._make_request`
    (base_generator.py lines 259-289): the URL and query params are passed
    through unchanged, and the auth headers are merged into the caller's
    headers with `headers.update(...)`. Returns `(url, params, headers)`. -/
def sync_make_request_parts (api_token request_id : Option String) (url : String)
    (params headers : List (String × String)) :
    String × List (String × String) × List (String × String) :=
  (url, params, dictUpdate headers (_get_auth_headers api_token request_id))

/-! ## The sync retry wrapper with faithful `time.sleep` semantics -/

/-- Model of CPython `time.sleep`: a negative duration raises
    `ValueError("sleep length must be non-negative")`; otherwise the call
    returns. -/
def time_sleep (duration : ℚ) : Except PyExn Unit :=
  if duration < 0 then Except.error PyExn.valueError else Except.ok ()

/-- Outcome of the sync `with_retry` wrapper when `time.sleep` is modelled
    faithfully: the result is either the wrapped call's value (`none` for
    the Python `None` of an empty loop), the re-raised wrapped error
    (`Sum.inl`), or an exception raised by the retry machinery itself —
    `time.sleep`'s `ValueError` escaping the `except` handler (`Sum.inr`).
    `waits` records only the sleeps that completed. -/
structure RetryRun (α : Type) where
  result : Except (ReqError ⊕ PyExn) (Option α)
  attempts : Nat
  waits : List ℚ

/-- The attempt loop of the sync wrapper of `with_retry`
    (base_generator.py lines 75-108), as in `syncRetryLoop` but with each
    `time.sleep(wait_time)` call modelled by `time_sleep`: a negative
    computed wait makes the sleep raise `ValueError`, which propagates out
    of the `except` block and aborts the whole wrapper mid-retry. -/
def syncRetryLoopSleep (max_attempts : Nat) (f : Nat → Except ReqError α) (jitter : Nat → ℚ) :
    List Nat → Nat → List ℚ → RetryRun α
  | [], done, waits => ⟨Except.ok none, done, waits.reverse⟩
  | attempt :: rest, done, waits =>
    match f attempt with
    | Except.ok a => ⟨Except.ok (some a), done + 1, waits.reverse⟩
    | Except.error e =>
      match e with
      | ReqError.rateLimitError ra =>
        if attempt < max_attempts - 1 then
          let wait := ((pyOrInt ra DEFAULT_RETRY_AFTER : Int) : ℚ)
          match time_sleep wait with
          | Except.ok _ => syncRetryLoopSleep max_attempts f jitter rest (done + 1) (wait :: waits)
          | Except.error ex => ⟨Except.error (Sum.inr ex), done + 1, waits.reverse⟩
        else ⟨Except.error (Sum.inl e), done + 1, waits.reverse⟩
      | ReqError.httpError st hdr =>
        if st ∈ RETRYABLE_HTTP_CODES ∧ attempt < max_attempts - 1 then
          let wait := httpErrorWait hdr attempt (jitter attempt)
          match time_sleep wait with
          | Except.ok _ => syncRetryLoopSleep max_attempts f jitter rest (done + 1) (wait :: waits)
          | Except.error ex => ⟨Except.error (Sum.inr ex), done + 1, waits.reverse⟩
        else ⟨Except.error (Sum.inl e), done + 1, waits.reverse⟩
      | ReqError.chunkedEncodingError =>
        if attempt < max_attempts - 1 then
          let wait := _calculate_wait_time attempt (jitter attempt) MAX_CHUNK_ENCODING_BACKOFF
          match time_sleep wait with
          | Except.ok _ => syncRetryLoopSleep max_attempts f jitter rest (done + 1) (wait :: waits)
          | Except.error ex => ⟨Except.error (Sum.inr ex), done + 1, waits.reverse⟩
        else ⟨Except.error (Sum.inl e), done + 1, waits.reverse⟩
      | ReqError.otherError => ⟨Except.error (Sum.inl e), done + 1, waits.reverse⟩

/-- The sync wrapper produced by `with_retry(max_attempts)`, with
    `time.sleep` modelled faithfully. -/
def with_retry_sync_sleep (max_attempts : Nat) (f : Nat → Except ReqError α) (jitter : Nat → ℚ) :
    RetryRun α :=
  syncRetryLoopSleep max_attempts f jitter (List.range max_attempts) 0 []

/-! ## Helper lemmas -/

/-- The waits of the sync retry wrapper when every attempt fails with a
    `RateLimitError`: two sleeps of `e.retry_after or DEFAULT_RETRY_AFTER`
    before the final re-raise. -/
lemma rateLimit_waits (ra : Option Int) (j : Nat → ℚ) :
    (with_retry_sync 3 (fun _ => (Except.error (ReqError.rateLimitError ra) : Except ReqError Unit)) j).waits
      = [((pyOrInt ra DEFAULT_RETRY_AFTER : Int) : ℚ), ((pyOrInt ra DEFAULT_RETRY_AFTER : Int) : ℚ)] :=
  rfl

/-- A pool whose session is already constructed is returned unchanged by
    every further `get_session`, so iterated acquisition replicates the
    same session reference. -/
lemma get_session_iter_stable : ∀ (n : Nat) (st : SyncSessionManager.State) (s : Nat),
    st._closed = false → st._session = some s →
    SyncSessionManager.get_session_iter st n = Except.ok (List.replicate n s, st) := by
  intro n
  induction n with
  | zero => intro st s h1 h2; simp [SyncSessionManager.get_session_iter, List.replicate]
  | succ m ih =>
    intro st s h1 h2
    have hg : SyncSessionManager.get_session st = Except.ok (s, st) := by
      simp [SyncSessionManager.get_session, h1, h2]
    simp [SyncSessionManager.get_session_iter, hg, ih st s h1 h2, List.replicate]

/-! ## Claim C1 — token never in the URL -/

/-- C1, counterexample: the claim "the constructed URL string never
    contains the token substring" is false for `BaseAPI._make_request`
    (base_client.py lines 41-43): with a configured token, a GET request
    gets `params['token'] = token`, so the constructed URL carries the
    token in its query string. -/
theorem spec_C1_counterexample :
    urlWithParams "https://image.pollinations.ai/prompt/cat"
        (baseAPI_apply_token "GET" [] [] (some "SECRETTOKEN")).2 =
      "https://image.pollinations.ai/prompt/cat?token=SECRETTOKEN" ∧
    strContains (urlWithParams "https://image.pollinations.ai/prompt/cat"
        (baseAPI_apply_token "GET" [] [] (some "SECRETTOKEN")).2) "SECRETTOKEN" = true :=
  ⟨rfl, rfl⟩

/-- C1, amended: requests built by the generator layer
    (`SyncGenerator._make_request` via `BaseGenerator._get_auth_headers`)
    pass the URL and query params through unchanged and put the configured
    token only into the `Authorization: Bearer <token>` header; in the
    legacy `BaseAPI._make_request` this also holds for POST requests, but
    every other method receives the token as the `token` query parameter. -/
theorem spec_C1_amended : ∀ (t : String) (rid : Option String) (url : String)
    (params headers : List (String × String)), t ≠ "" →
    (sync_make_request_parts (some t) rid url params headers).1 = url ∧
    (sync_make_request_parts (some t) rid url params headers).2.1 = params ∧
    ("Authorization", "Bearer " ++ t) ∈ (sync_make_request_parts (some t) rid url params headers).2.2 ∧
    (baseAPI_apply_token "POST" headers params (some t)).2 = params ∧
    (baseAPI_apply_token "POST" headers params (some t)).1 =
      dictSet headers "Authorization" ("Bearer " ++ t) ∧
    (baseAPI_apply_token "GET" headers params (some t)).2 = dictSet params "token" t := by
  intro t rid url params headers ht
  refine ⟨rfl, rfl, ?_, rfl, rfl, rfl⟩
  cases rid with
  | none => simp [sync_make_request_parts, _get_auth_headers, dictUpdate, dictSet, ht]
  | some r =>
    by_cases hr : r = "" <;>
      simp [sync_make_request_parts, _get_auth_headers, dictUpdate, dictSet, ht, hr]

/-- C1, witness: the amended theorem evaluated on a concrete token,
    URL and parameter list. -/
theorem spec_C1_witness :
    (sync_make_request_parts (some "SECRETTOKEN") none
        "https://enter.pollinations.ai/api/generate/image/cat" [("model", "flux")] []).1 =
      "https://enter.pollinations.ai/api/generate/image/cat" ∧
    (sync_make_request_parts (some "SECRETTOKEN") none
        "https://enter.pollinations.ai/api/generate/image/cat" [("model", "flux")] []).2.1 =
      [("model", "flux")] ∧
    ("Authorization", "Bearer " ++ "SECRETTOKEN") ∈
      (sync_make_request_parts (some "SECRETTOKEN") none
        "https://enter.pollinations.ai/api/generate/image/cat" [("model", "flux")] []).2.2 ∧
    (baseAPI_apply_token "POST" [] [("model", "flux")] (some "SECRETTOKEN")).2 = [("model", "flux")] ∧
    (baseAPI_apply_token "POST" [] [("model", "flux")] (some "SECRETTOKEN")).1 =
      dictSet [] "Authorization" ("Bearer " ++ "SECRETTOKEN") ∧
    (baseAPI_apply_token "GET" [] [("model", "flux")] (some "SECRETTOKEN")).2 =
      dictSet [("model", "flux")] "token" "SECRETTOKEN" :=
  spec_C1_amended "SECRETTOKEN" none "https://enter.pollinations.ai/api/generate/image/cat"
    [("model", "flux")] [] (by decide)

/-! ## Claim C2 — retryable status set -/

/-- C2, counterexample: the claim says a 520 response at an attempt below
    the maximum is retried; in fact an always-520-failing call makes the
    sync retry wrapper perform exactly one attempt (no retry), because
    `RETRYABLE_HTTP_CODES = {502, 503, 504}` does not contain 520. -/
theorem spec_C2_counterexample :
    (with_retry_sync 3 (fun _ => (Except.error (ReqError.httpError 520 none) : Except ReqError Unit)) (fun _ => 0)).attempts = 1 ∧
    ¬ 2 ≤ (with_retry_sync 3 (fun _ => (Except.error (ReqError.httpError 520 none) : Except ReqError Unit)) (fun _ => 0)).attempts := by
  have h1 : (with_retry_sync 3 (fun _ => (Except.error (ReqError.httpError 520 none) : Except ReqError Unit)) (fun _ => 0)).attempts = 1 := rfl
  exact ⟨h1, by omega⟩

/-- C2, amended: every HTTP error whose status is in the retryable set
    `{502, 503, 504}` is retried at every attempt below the maximum (an
    always-failing retryable call uses all 3 attempts before re-raising),
    while a 520 response is raised immediately after a single attempt. -/
theorem spec_C2_amended : ∀ (s : Nat) (hdr : Option String) (j : Nat → ℚ),
    s ∈ RETRYABLE_HTTP_CODES →
    (with_retry_sync 3 (fun _ => (Except.error (ReqError.httpError s hdr) : Except ReqError Unit)) j).attempts = 3 ∧
    (with_retry_sync 3 (fun _ => (Except.error (ReqError.httpError s hdr) : Except ReqError Unit)) j).result = Except.error (ReqError.httpError s hdr) ∧
    (with_retry_sync 3 (fun _ => (Except.error (ReqError.httpError 520 hdr) : Except ReqError Unit)) j).attempts = 1 := by
  intro s hdr j hs
  simp [RETRYABLE_HTTP_CODES] at hs
  rcases hs with rfl | rfl | rfl <;> exact ⟨rfl, rfl, rfl⟩

/-- C2, witness: the amended theorem evaluated at status 502. -/
theorem spec_C2_witness :
    (502 ∈ RETRYABLE_HTTP_CODES) ∧
    (with_retry_sync 3 (fun _ => (Except.error (ReqError.httpError 502 none) : Except ReqError Unit)) (fun _ => 0)).attempts = 3 := by
  have h := spec_C2_amended 502 none (fun _ => 0) (by decide)
  exact ⟨by decide, h.1⟩

/-! ## Claim C3 — retry bound and unchanged re-raise -/

/-- C3: with `max_attempts = 3` and a call failing on every attempt with a
    retryable error, the sync retry wrapper performs exactly 3 attempts
    (2 retries) and then re-raises the very same error value, without
    wrapping it in another error type. -/
theorem spec_C3_retry_exhaustion : ∀ (e : ReqError) (j : Nat → ℚ),
    isRetryableError e = true →
    (with_retry_sync 3 (fun _ => (Except.error e : Except ReqError Unit)) j).attempts = 3 ∧
    (with_retry_sync 3 (fun _ => (Except.error e : Except ReqError Unit)) j).result = Except.error e := by
  intro e j he
  cases e with
  | rateLimitError ra => exact ⟨rfl, rfl⟩
  | httpError s hdr =>
    simp [isRetryableError, RETRYABLE_HTTP_CODES] at he
    rcases he with rfl | rfl | rfl <;> exact ⟨rfl, rfl⟩
  | chunkedEncodingError => exact ⟨rfl, rfl⟩
  | otherError => simp [isRetryableError] at he

/-- C3, witness: the theorem evaluated on an always-502-failing call. -/
theorem spec_C3_witness :
    isRetryableError (ReqError.httpError 502 none) = true ∧
    (with_retry_sync 3 (fun _ => (Except.error (ReqError.httpError 502 none) : Except ReqError Unit)) (fun _ => 0)).attempts = 3 ∧
    (with_retry_sync 3 (fun _ => (Except.error (ReqError.httpError 502 none) : Except ReqError Unit)) (fun _ => 0)).result = Except.error (ReqError.httpError 502 none) := by
  have h := spec_C3_retry_exhaustion (ReqError.httpError 502 none) (fun _ => 0) rfl
  exact ⟨rfl, h.1, h.2⟩

/-! ## Claim C4 — rate-limit wait honors the server hint -/

/-- C4, counterexample: the claim says the 429 retry-after hint "is taken
    from a Retry-After-style header parsed as integer seconds"; in fact
    `_handle_http_error` reads it from the JSON response body field
    `retry_after` and ignores the headers. For a 429 response with header
    `Retry-After: 5` and body without the field, the code's hint is 60
    while the claimed header hint is 5. -/
theorem spec_C4_counterexample :
    handle_429_retry_after (some "\x7b\x7d") = JVal.num 60 ∧
    spec_retry_after_hint [("Retry-After", "5")] = 5 ∧
    handle_429_retry_after (some "\x7b\x7d") ≠
      JVal.num (spec_retry_after_hint [("Retry-After", "5")]) := by
  refine ⟨rfl, rfl, ?_⟩
  have h1 : handle_429_retry_after (some "\x7b\x7d") = JVal.num 60 := rfl
  have h2 : spec_retry_after_hint [("Retry-After", "5")] = 5 := rfl
  rw [h1, h2]
  simp

/-- C4, amended: a retried rate-limit failure waits exactly the hint when
    one is present and nonzero (a hint of 5 yields a wait of exactly 5,
    not the exponential schedule) and 60 seconds when the hint is absent;
    the hint is extracted from the 429 response body's JSON field
    `retry_after`, defaulting to 60 when the body is absent, unparseable,
    or lacks the field — not from a Retry-After header. -/
theorem spec_C4_amended : ∀ (ra : Int) (j : Nat → ℚ), ra ≠ 0 →
    (with_retry_sync 3 (fun _ => (Except.error (ReqError.rateLimitError (some ra)) : Except ReqError Unit)) j).waits = [(ra : ℚ), (ra : ℚ)] ∧
    (with_retry_sync 3 (fun _ => (Except.error (ReqError.rateLimitError none) : Except ReqError Unit)) j).waits = [60, 60] ∧
    handle_429_retry_after (some "\x7b\"retry_after\": 5\x7d") = JVal.num 5 ∧
    handle_429_retry_after (some "\x7b\x7d") = JVal.num 60 ∧
    handle_429_retry_after (some "not json") = JVal.num 60 ∧
    handle_429_retry_after none = JVal.num 60 := by
  intro ra j hra
  refine ⟨?_, ?_, rfl, rfl, rfl, rfl⟩
  · rw [rateLimit_waits]
    simp [pyOrInt, hra]
  · rw [rateLimit_waits]
    norm_num [pyOrInt, DEFAULT_RETRY_AFTER]

/-- C4, witness: the amended theorem evaluated at hint 5. -/
theorem spec_C4_witness :
    (with_retry_sync 3 (fun _ => (Except.error (ReqError.rateLimitError (some 5)) : Except ReqError Unit)) (fun _ => 0)).waits = [((5 : Int) : ℚ), ((5 : Int) : ℚ)] ∧
    (with_retry_sync 3 (fun _ => (Except.error (ReqError.rateLimitError none) : Except ReqError Unit)) (fun _ => 0)).waits = [60, 60] ∧
    handle_429_retry_after (some "\x7b\"retry_after\": 5\x7d") = JVal.num 5 := by
  have h := spec_C4_amended 5 (fun _ => 0) (by norm_num)
  exact ⟨h.1, h.2.1, h.2.2.1⟩

/-! ## Claim C5 — exponential backoff bounds -/

/-- C5, counterexample: the claim says the backoff wait lies within
    `[2^a, 2^a + 1]` for every attempt `a ≥ 0`; at attempt 6 with zero
    jitter the wait is capped to 32, which is below `2^6 = 64`. -/
theorem spec_C5_counterexample :
    _calculate_wait_time 6 0 MAX_EXPONENTIAL_BACKOFF = 32 ∧
    ¬ ((2 : ℚ) ^ (6 : Nat) ≤ _calculate_wait_time 6 0 MAX_EXPONENTIAL_BACKOFF) := by
  constructor
  · norm_num [_calculate_wait_time, MAX_EXPONENTIAL_BACKOFF, min_def]
  · norm_num [_calculate_wait_time, MAX_EXPONENTIAL_BACKOFF, min_def]

/-- C5, amended: for every attempt `a` and jitter in `[0, 1]`, the backoff
    wait equals `min(2^a + jitter, cap)` and never exceeds the cap (32 for
    generic HTTP retries, 16 for transfer-failure retries); it lies within
    `[2^a, 2^a + 1]` whenever `2^a ≤ cap` (in particular for every attempt
    reachable under the 3-attempt bound). -/
theorem spec_C5_amended : ∀ (a : Nat) (jit cap : ℚ), 0 ≤ jit → jit ≤ 1 →
    (cap = MAX_EXPONENTIAL_BACKOFF ∨ cap = MAX_CHUNK_ENCODING_BACKOFF) →
    _calculate_wait_time a jit cap = min ((2 : ℚ) ^ a + jit) cap ∧
    _calculate_wait_time a jit cap ≤ cap ∧
    ((2 : ℚ) ^ a ≤ cap →
      (2 : ℚ) ^ a ≤ _calculate_wait_time a jit cap ∧
      _calculate_wait_time a jit cap ≤ (2 : ℚ) ^ a + 1) := by
  intro a jit cap h0 h1 _
  refine ⟨rfl, min_le_right _ _, fun hc => ⟨le_min (by linarith) hc,
    le_trans (min_le_left _ _) (by linarith)⟩⟩

/-- C5, witness: the amended theorem evaluated at attempt 3, jitter 1/2
    and the 32-second cap, with the in-range bracket discharged. -/
theorem spec_C5_witness :
    _calculate_wait_time 3 (1/2) MAX_EXPONENTIAL_BACKOFF =
      min ((2 : ℚ) ^ (3 : Nat) + 1/2) MAX_EXPONENTIAL_BACKOFF ∧
    _calculate_wait_time 3 (1/2) MAX_EXPONENTIAL_BACKOFF ≤ MAX_EXPONENTIAL_BACKOFF ∧
    (2 : ℚ) ^ (3 : Nat) ≤ _calculate_wait_time 3 (1/2) MAX_EXPONENTIAL_BACKOFF ∧
    _calculate_wait_time 3 (1/2) MAX_EXPONENTIAL_BACKOFF ≤ (2 : ℚ) ^ (3 : Nat) + 1 := by
  have h := spec_C5_amended 3 (1/2) MAX_EXPONENTIAL_BACKOFF (by norm_num) (by norm_num) (Or.inl rfl)
  have hb := h.2.2 (by norm_num [MAX_EXPONENTIAL_BACKOFF])
  exact ⟨h.1, h.2.1, hb.1, hb.2⟩

/-! ## Claim C6 — stream termination on the DONE sentinel -/

/-- C6: feeding the decoder the frames carrying deltas "a" and "b"
    followed by the `[DONE]` sentinel yields exactly the events "a" then
    "b" and terminates; no event is emitted for any line after the
    sentinel, whatever it is — in particular not for a trailing "c"
    frame. -/
theorem spec_C6_stream_termination : ∀ suffix : List String,
    stream_sse (["data: \x7b\"choices\": [\x7b\"delta\": \x7b\"content\": \"a\"\x7d\x7d]\x7d",
        "data: \x7b\"choices\": [\x7b\"delta\": \x7b\"content\": \"b\"\x7d\x7d]\x7d",
        "data: [DONE]"] ++ suffix) = ([JVal.str "a", JVal.str "b"], none) ∧
    stream_sse ["data: \x7b\"choices\": [\x7b\"delta\": \x7b\"content\": \"a\"\x7d\x7d]\x7d",
        "data: \x7b\"choices\": [\x7b\"delta\": \x7b\"content\": \"b\"\x7d\x7d]\x7d",
        "data: [DONE]",
        "data: \x7b\"choices\": [\x7b\"delta\": \x7b\"content\": \"c\"\x7d\x7d]\x7d"] =
      ([JVal.str "a", JVal.str "b"], none) :=
  fun _ => ⟨rfl, rfl⟩

/-! ## Claim C7 — malformed-frame resilience -/

/-- C7, counterexample: the claim says frames whose nested delta field is
    absent produce no event and no error; feeding the decoder the frame
    `data: 3` (valid JSON, but not an object) makes `parsed.get("done")`
    raise an `AttributeError`, aborting the stream and losing the
    following "x" frame. -/
theorem spec_C7_counterexample :
    stream_sse ["data: 3",
        "data: \x7b\"choices\": [\x7b\"delta\": \x7b\"content\": \"x\"\x7d\x7d]\x7d"] =
      ([], some PyExn.attributeError) ∧
    (stream_sse ["data: 3",
        "data: \x7b\"choices\": [\x7b\"delta\": \x7b\"content\": \"x\"\x7d\x7d]\x7d"]).2 ≠ none := by
  refine ⟨rfl, ?_⟩
  have h : (stream_sse ["data: 3",
      "data: \x7b\"choices\": [\x7b\"delta\": \x7b\"content\": \"x\"\x7d\x7d]\x7d"]).2 =
      some PyExn.attributeError := rfl
  rw [h]
  simp

/-- C7, amended: a malformed (non-JSON) data frame produces no event and
    no error — `[data: {not valid}, data: {delta:"x"}]` yields exactly the
    "x" event; any line the parser maps to `None` (blank lines, lines
    without the `data: ` marker) contributes nothing to the stream; and a
    frame parsing to a JSON object whose delta content is absent or empty
    produces no event. However, a frame whose payload is valid JSON but
    not an object (e.g. `data: 3`) raises an `AttributeError` and aborts
    the stream. -/
theorem spec_C7_amended : ∀ (line : String) (rest : List String),
    stream_sse ["data: \x7bnot valid\x7d",
        "data: \x7b\"choices\": [\x7b\"delta\": \x7b\"content\": \"x\"\x7d\x7d]\x7d"] =
      ([JVal.str "x"], none) ∧
    (parse_line line = none → streamGo (line :: rest) = streamGo rest) ∧
    ((stripChars line.data).isEmpty = true → parse_line line = none) ∧
    (List.isPrefixOf (String.toList "data: ") line.data = false → parse_line line = none) ∧
    stream_sse ["data: \x7b\"choices\": [\x7b\"delta\": \x7b\x7d\x7d]\x7d"] = ([], none) ∧
    stream_sse ["data: \x7b\"choices\": []\x7d"] = ([], none) ∧
    stream_sse ["data: \x7b\"foo\": 1\x7d"] = ([], none) := by
  intro line rest
  refine ⟨rfl, ?_, ?_, ?_, rfl, rfl, rfl⟩
  · intro h
    simp [streamGo, h]
  · intro h
    simp [parse_line, h]
  · intro h
    unfold parse_line
    rw [h]
    simp

/-- C7, witness: the amended theorem evaluated on a concrete ignorable
    line, with both ignore conditions discharged. -/
theorem spec_C7_witness :
    stream_sse ["data: \x7bnot valid\x7d",
        "data: \x7b\"choices\": [\x7b\"delta\": \x7b\"content\": \"x\"\x7d\x7d]\x7d"] =
      ([JVal.str "x"], none) ∧
    streamGo ["event: ping"] = streamGo [] ∧
    parse_line "" = none ∧
    parse_line "event: ping" = none := by
  have ha := spec_C7_amended "event: ping" []
  have hb := spec_C7_amended "" []
  have hp1 : parse_line "event: ping" = none := ha.2.2.2.1 (by rfl)
  have hp0 : parse_line "" = none := hb.2.2.1 (by rfl)
  exact ⟨ha.1, ha.2.1 hp1, hp0, hp1⟩

/-! ## Claim C8 — use-after-close and idempotent close -/

/-- C8: after `close()`, every subsequent `get_session()` raises the
    pool-closed `RuntimeError`; a second `close()` raises nothing (it is a
    total function here, mirroring the early return), leaves the pool
    closed and state unchanged, and closes the underlying session zero
    further times. -/
theorem spec_C8_close_idempotent : ∀ st : SyncSessionManager.State,
    SyncSessionManager.get_session (SyncSessionManager.close st).1 =
      Except.error "SyncSessionManager closed" ∧
    SyncSessionManager.close (SyncSessionManager.close st).1 = ((SyncSessionManager.close st).1, 0) ∧
    ((SyncSessionManager.close st).1)._closed = true := by
  intro st
  rcases st with ⟨sess, closed, nid⟩
  cases closed <;> cases sess <;>
    simp [SyncSessionManager.close, SyncSessionManager.get_session]

/-! ## Claim C9 — lazy singleton session -/

/-- C9: on a non-closed pool, any sequence of `n ≥ 1` `get_session` calls
    succeeds and returns the same session reference every time (the
    existing one, or the lazily constructed one), and at most one session
    is ever constructed (the fresh-id counter grows by at most one). -/
theorem spec_C9_single_session : ∀ (st : SyncSessionManager.State) (n : Nat),
    st._closed = false → 1 ≤ n →
    SyncSessionManager.get_session_iter st n =
      Except.ok (List.replicate n (SyncSessionManager.expected_session st),
        SyncSessionManager.state_after_acquire st) ∧
    (SyncSessionManager.state_after_acquire st).nextSessionId ≤ st.nextSessionId + 1 := by
  intro st n h1 hn
  obtain ⟨m, rfl⟩ : ∃ m, n = m + 1 := ⟨n - 1, by omega⟩
  cases hs : st._session with
  | some s =>
    have hg : SyncSessionManager.get_session st = Except.ok (s, st) := by
      simp [SyncSessionManager.get_session, h1, hs]
    have hit := get_session_iter_stable m st s h1 hs
    constructor
    · simp [SyncSessionManager.get_session_iter, hg, hit,
        SyncSessionManager.expected_session, SyncSessionManager.state_after_acquire, hs,
        List.replicate]
    · simp [SyncSessionManager.state_after_acquire, hs]
  | none =>
    have hg : SyncSessionManager.get_session st =
        Except.ok (st.nextSessionId, ⟨some st.nextSessionId, false, st.nextSessionId + 1⟩) := by
      simp [SyncSessionManager.get_session, h1, hs]
    have hit := get_session_iter_stable m ⟨some st.nextSessionId, false, st.nextSessionId + 1⟩
      st.nextSessionId rfl rfl
    constructor
    · simp [SyncSessionManager.get_session_iter, hg, hit,
        SyncSessionManager.expected_session, SyncSessionManager.state_after_acquire, hs,
        List.replicate]
    · simp [SyncSessionManager.state_after_acquire, hs]

/-- C9, witness: three acquisitions on a fresh pool construct exactly one
    session (id 0) and return it three times. -/
theorem spec_C9_witness :
    SyncSessionManager.get_session_iter ⟨none, false, 0⟩ 3 =
      Except.ok ([0, 0, 0], ⟨some 0, false, 1⟩) := by
  have h := spec_C9_single_session ⟨none, false, 0⟩ 3 rfl (by norm_num)
  simpa [SyncSessionManager.expected_session, SyncSessionManager.state_after_acquire,
    List.replicate] using h.1

/-! ## Claim C10 — zero retry-after hint falls back to the default -/

/-- A rate-limited run of the faithful-sleep wrapper whose computed wait
    `e.retry_after or DEFAULT_RETRY_AFTER` is nonnegative: both sleeps
    complete and the error is re-raised after 3 attempts. -/
lemma sleep_run_of_nonneg (ra : Option Int) (j : Nat → ℚ)
    (h : 0 ≤ pyOrInt ra DEFAULT_RETRY_AFTER) :
    with_retry_sync_sleep 3 (fun _ => (Except.error (ReqError.rateLimitError ra) : Except ReqError Unit)) j =
      ⟨Except.error (Sum.inl (ReqError.rateLimitError ra)), 3,
        [((pyOrInt ra DEFAULT_RETRY_AFTER : Int) : ℚ), ((pyOrInt ra DEFAULT_RETRY_AFTER : Int) : ℚ)]⟩ := by
  have hq : ¬ (((pyOrInt ra DEFAULT_RETRY_AFTER : Int) : ℚ) < 0) := by
    rw [not_lt]
    exact_mod_cast h
  unfold with_retry_sync_sleep
  rw [(rfl : List.range 3 = [0, 1, 2])]
  simp [syncRetryLoopSleep, time_sleep, hq]

/-- A rate-limited run of the faithful-sleep wrapper whose computed wait
    is negative: the first `time.sleep` raises `ValueError`, so the run
    aborts after a single attempt with no completed sleep. -/
lemma sleep_run_of_neg (ra : Option Int) (j : Nat → ℚ)
    (h : pyOrInt ra DEFAULT_RETRY_AFTER < 0) :
    with_retry_sync_sleep 3 (fun _ => (Except.error (ReqError.rateLimitError ra) : Except ReqError Unit)) j =
      ⟨Except.error (Sum.inr PyExn.valueError), 1, []⟩ := by
  have hq : ((pyOrInt ra DEFAULT_RETRY_AFTER : Int) : ℚ) < 0 := by exact_mod_cast h
  unfold with_retry_sync_sleep
  rw [(rfl : List.range 3 = [0, 1, 2])]
  simp [syncRetryLoopSleep, time_sleep, hq]

/-- C10: in the sync retry wrapper (with `time.sleep` modelled
    faithfully), a rate-limit hint of 0 yields two waits of the 60-second
    default rather than 0, because `e.retry_after or DEFAULT_RETRY_AFTER`
    tests truthiness instead of presence; and only a strictly positive
    hint is honored as-is — the wait trace equals `[hint, hint]` exactly
    when the hint is positive, while a negative hint makes the first
    `time.sleep` raise `ValueError`, aborting the run after one attempt
    with no completed wait. -/
theorem spec_C10_truthiness : ∀ (ra : Int) (j : Nat → ℚ),
    (with_retry_sync_sleep 3 (fun _ => (Except.error (ReqError.rateLimitError (some 0)) : Except ReqError Unit)) j).waits = [60, 60] ∧
    pyOrInt (some 0) DEFAULT_RETRY_AFTER = DEFAULT_RETRY_AFTER ∧
    ((with_retry_sync_sleep 3 (fun _ => (Except.error (ReqError.rateLimitError (some ra)) : Except ReqError Unit)) j).waits = [(ra : ℚ), (ra : ℚ)] ↔ 0 < ra) ∧
    (ra < 0 →
      (with_retry_sync_sleep 3 (fun _ => (Except.error (ReqError.rateLimitError (some ra)) : Except ReqError Unit)) j).result = Except.error (Sum.inr PyExn.valueError) ∧
      (with_retry_sync_sleep 3 (fun _ => (Except.error (ReqError.rateLimitError (some ra)) : Except ReqError Unit)) j).attempts = 1) := by
  intro ra j
  have h0 : (0 : Int) ≤ pyOrInt (some 0) DEFAULT_RETRY_AFTER := by
    norm_num [pyOrInt, DEFAULT_RETRY_AFTER]
  have hrun0 := sleep_run_of_nonneg (some 0) j h0
  refine ⟨?_, rfl, ?_, ?_⟩
  · rw [hrun0]
    norm_num [pyOrInt, DEFAULT_RETRY_AFTER]
  · constructor
    · intro hw
      by_contra hpos
      push_neg at hpos
      rcases lt_or_eq_of_le hpos with hneg | hzero
      · have hne : ra ≠ 0 := by omega
        have hp : pyOrInt (some ra) DEFAULT_RETRY_AFTER = ra := by simp [pyOrInt, hne]
        have hrun := sleep_run_of_neg (some ra) j (by rw [hp]; exact hneg)
        rw [hrun] at hw
        simp at hw
      · subst hzero
        rw [hrun0] at hw
        norm_num [pyOrInt, DEFAULT_RETRY_AFTER] at hw
    · intro hpos
      have hne : ra ≠ 0 := by omega
      have hp : pyOrInt (some ra) DEFAULT_RETRY_AFTER = ra := by simp [pyOrInt, hne]
      have hrun := sleep_run_of_nonneg (some ra) j (by rw [hp]; omega)
      rw [hrun]
      simp [hp]
  · intro hneg
    have hne : ra ≠ 0 := by omega
    have hp : pyOrInt (some ra) DEFAULT_RETRY_AFTER = ra := by simp [pyOrInt, hne]
    have hrun := sleep_run_of_neg (some ra) j (by rw [hp]; exact hneg)
    rw [hrun]
    exact ⟨rfl, rfl⟩

/-- C10, witness: the theorem evaluated at hints 0, 5 and -1 — the zero
    hint waits 60 twice, the positive hint is honored as-is twice, and the
    negative hint aborts with `ValueError` after one attempt. -/
theorem spec_C10_witness :
    (with_retry_sync_sleep 3 (fun _ => (Except.error (ReqError.rateLimitError (some 0)) : Except ReqError Unit)) (fun _ => 0)).waits = [60, 60] ∧
    (with_retry_sync_sleep 3 (fun _ => (Except.error (ReqError.rateLimitError (some 5)) : Except ReqError Unit)) (fun _ => 0)).waits = [((5 : Int) : ℚ), ((5 : Int) : ℚ)] ∧
    (with_retry_sync_sleep 3 (fun _ => (Except.error (ReqError.rateLimitError (some (-1))) : Except ReqError Unit)) (fun _ => 0)).result = Except.error (Sum.inr PyExn.valueError) ∧
    (with_retry_sync_sleep 3 (fun _ => (Except.error (ReqError.rateLimitError (some (-1))) : Except ReqError Unit)) (fun _ => 0)).attempts = 1 := by
  have h5 := spec_C10_truthiness 5 (fun _ => 0)
  have hm := spec_C10_truthiness (-1) (fun _ => 0)
  refine ⟨h5.1, ?_, (hm.2.2.2 (by norm_num)).1, (hm.2.2.2 (by norm_num)).2⟩
  have hw := h5.2.2.1.mpr (by norm_num)
  exact_mod_cast hw
